import Mathlib

/-!
Verification development for the jerusalem-client repository (Go).

The Go sources are shallowly embedded here:

* `auth.go` — `Authenticator`, `NewAuthenticator`, `GenerateAnswer`,
  `ValidateAnswer`, `PerformClientHandshake`.
* `misc.go` — the message tags and `ClientMessage` / `ServerMessage`
  envelopes, `NewClient`, `Listen`, `processServerMessage`,
  `establishConnectionRoutine`, `processInitialServerMessage`.

Go byte strings (`string`, `[]byte`, `uuid.UUID`) are modelled as
`List Nat` of byte values; machine words are `Nat` reduced modulo `2 ^ 32`
exactly where the Go `uint32` arithmetic wraps.  The cryptographic
primitives used by `auth.go` (`crypto/sha256`, `crypto/hmac`,
`encoding/hex`, `crypto/subtle` via `hmac.Equal`) are implemented
concretely below, following their specified behaviour (FIPS 180-4 SHA-256,
RFC 2104 HMAC with a 64-byte block, lowercase hex encoding, hex decoding
that accepts both letter cases and rejects odd length or non-hex bytes,
and length-then-content comparison).

The wire `Codec` of the repository is not among the given sources; it is
modelled from the spec's channel contract (section 6) as a script of
receive results, where `none` stands for a failed receive (timeout,
transport failure or decode error) and a send succeeds recording the sent
message whenever the channel's `sendOk` flag is set.
-/

/-- Addition of 32-bit words with Go `uint32` wrap-around. -/
def add32 (a b : Nat) : Nat :=
  (a + b) % 4294967296

/-- Right rotation of a 32-bit word by `n` bits (Go `bits.RotateLeft32`
with a negative shift, as used by `crypto/sha256`). -/
def rotr32 (n x : Nat) : Nat :=
  ((x >>> n) ||| (x <<< (32 - n))) % 4294967296

/-- The `Ch` function of FIPS 180-4 on 32-bit words; Go writes the
complement as xor with the all-ones word. -/
def sha256Ch (x y z : Nat) : Nat :=
  (x &&& y) ^^^ ((x ^^^ 4294967295) &&& z)

/-- The `Maj` function of FIPS 180-4 on 32-bit words. -/
def sha256Maj (x y z : Nat) : Nat :=
  (x &&& y) ^^^ (x &&& z) ^^^ (y &&& z)

/-- The big sigma-0 word function of FIPS 180-4. -/
def bigSigma0 (x : Nat) : Nat :=
  rotr32 2 x ^^^ rotr32 13 x ^^^ rotr32 22 x

/-- The big sigma-1 word function of FIPS 180-4. -/
def bigSigma1 (x : Nat) : Nat :=
  rotr32 6 x ^^^ rotr32 11 x ^^^ rotr32 25 x

/-- The small sigma-0 word function of FIPS 180-4. -/
def smallSigma0 (x : Nat) : Nat :=
  rotr32 7 x ^^^ rotr32 18 x ^^^ (x >>> 3)

/-- The small sigma-1 word function of FIPS 180-4. -/
def smallSigma1 (x : Nat) : Nat :=
  rotr32 17 x ^^^ rotr32 19 x ^^^ (x >>> 10)

/-- The 64 SHA-256 round constants, in decimal. -/
def K256 : List Nat :=
  [1116352408, 1899447441, 3049323471, 3921009573, 961987163,
   1508970993, 2453635748, 2870763221, 3624381080, 310598401,
   607225278, 1426881987, 1925078388, 2162078206, 2614888103,
   3248222580, 3835390401, 4022224774, 264347078, 604807628,
   770255983, 1249150122, 1555081692, 1996064986, 2554220882,
   2821834349, 2952996808, 3210313671, 3336571891, 3584528711,
   113926993, 338241895, 666307205, 773529912, 1294757372,
   1396182291, 1695183700, 1986661051, 2177026350, 2456956037,
   2730485921, 2820302411, 3259730800, 3345764771, 3516065817,
   3600352804, 4094571909, 275423344, 430227734, 506948616,
   659060556, 883997877, 958139571, 1322822218, 1537002063,
   1747873779, 1955562222, 2024104815, 2227730452, 2361852424,
   2428436474, 2756734187, 3204031479, 3329325298]

/-- The eight 32-bit working registers of the SHA-256 compression
function. -/
structure Sha256State where
  a : Nat
  b : Nat
  c : Nat
  d : Nat
  e : Nat
  f : Nat
  g : Nat
  h : Nat

/-- The SHA-256 initial hash value, in decimal. -/
def sha256Init : Sha256State :=
  ⟨1779033703, 3144134277, 1013904242, 2773480762,
   1359893119, 2600822924, 528734635, 1541459225⟩

/-- One SHA-256 round: `kw` carries the round constant and the schedule
word. -/
def sha256Round (s : Sha256State) (kw : Nat × Nat) : Sha256State :=
  let t1 := add32 (add32 (add32 s.h (bigSigma1 s.e)) (add32 (sha256Ch s.e s.f s.g) kw.1)) kw.2
  let t2 := add32 (bigSigma0 s.a) (sha256Maj s.a s.b s.c)
  ⟨add32 t1 t2, s.a, s.b, s.c, add32 s.d t1, s.e, s.f, s.g⟩

/-- Group a byte list into big-endian 32-bit words, four bytes per word. -/
def bytesToWords : List Nat → List Nat
  | b0 :: b1 :: b2 :: b3 :: rest =>
      (b0 * 16777216 + b1 * 65536 + b2 * 256 + b3) :: bytesToWords rest
  | _ => []

/-- One extension step of the SHA-256 message schedule.  The list holds
the schedule so far in reverse order (most recent word first), so the
words `w[t-2]`, `w[t-7]`, `w[t-15]`, `w[t-16]` sit at positions 1, 6, 14
and 15. -/
def scheduleStep (ws : List Nat) : List Nat :=
  add32 (add32 (smallSigma1 (ws.getD 1 0)) (ws.getD 6 0))
        (add32 (smallSigma0 (ws.getD 14 0)) (ws.getD 15 0)) :: ws

/-- The full 64-word SHA-256 message schedule obtained from the sixteen
block words. -/
def messageSchedule (ws16 : List Nat) : List Nat :=
  (Nat.repeat scheduleStep 48 ws16.reverse).reverse

/-- Compress one 64-byte block into the running hash state. -/
def processBlock (s : Sha256State) (block : List Nat) : Sha256State :=
  let ws := messageSchedule (bytesToWords block)
  let r := (K256.zip ws).foldl sha256Round s
  ⟨add32 s.a r.a, add32 s.b r.b, add32 s.c r.c, add32 s.d r.d,
   add32 s.e r.e, add32 s.f r.f, add32 s.g r.g, add32 s.h r.h⟩

/-- Big-endian 8-byte encoding of a 64-bit length value. -/
def be64 (n : Nat) : List Nat :=
  [n / 72057594037927936 % 256, n / 281474976710656 % 256,
   n / 1099511627776 % 256, n / 4294967296 % 256,
   n / 16777216 % 256, n / 65536 % 256, n / 256 % 256, n % 256]

/-- SHA-256 padding: a `0x80` byte, zeros up to 56 modulo 64, then the
message bit length as a big-endian 64-bit value. -/
def sha256Pad (msg : List Nat) : List Nat :=
  let l := msg.length
  msg ++ 0x80 :: List.replicate ((119 - l % 64) % 64) 0
      ++ be64 (8 * l % 18446744073709551616)

/-- Split a byte list into consecutive 64-byte blocks; the first argument
is recursion fuel, instantiated with the list length (always sufficient
since every step consumes 64 bytes of a nonempty list). -/
def chunk64 : Nat → List Nat → List (List Nat)
  | 0, _ => []
  | _, [] => []
  | fuel + 1, l => l.take 64 :: chunk64 fuel (l.drop 64)

/-- The four big-endian bytes of a 32-bit word. -/
def wordBytes (w : Nat) : List Nat :=
  [w / 16777216 % 256, w / 65536 % 256, w / 256 % 256, w % 256]

/-- The 32-byte digest assembled from the final hash state,
most-significant word first. -/
def digestBytes (s : Sha256State) : List Nat :=
  [s.a, s.b, s.c, s.d, s.e, s.f, s.g, s.h].flatMap wordBytes

/-- SHA-256 of a byte string, as computed by Go `sha256.Sum256`. -/
def sha256 (msg : List Nat) : List Nat :=
  let padded := sha256Pad msg
  digestBytes ((chunk64 padded.length padded).foldl processBlock sha256Init)

/-- HMAC-SHA256 as implemented by Go `crypto/hmac`: a key longer than the
64-byte block is first hashed, the key is zero-padded to the block size,
and the digest is `H((key xor opad) ++ H((key xor ipad) ++ msg))`. -/
def hmacSha256 (key msg : List Nat) : List Nat :=
  let k0 := if 64 < key.length then sha256 key else key
  let kp := k0 ++ List.replicate (64 - k0.length) 0
  let ipadded := kp.map (fun b => b ^^^ 0x36)
  let opadded := kp.map (fun b => b ^^^ 0x5c)
  sha256 (opadded ++ sha256 (ipadded ++ msg))

/-- Go `hmac.Equal` (via `subtle.ConstantTimeCompare`): reports whether
the two byte strings are equal, returning false immediately on a length
mismatch.  Extensionally this is list equality. -/
def hmacEqual (x y : List Nat) : Bool :=
  x == y

/-- One lowercase hex digit byte, from the `encoding/hex` table
`0123456789abcdef`. -/
def toHexDigit (x : Nat) : Nat :=
  if x < 10 then 48 + x else 87 + x

/-- Go `encoding/hex` encoding: each byte becomes two lowercase hex digit
bytes, high nibble first. -/
def hexEncode : List Nat → List Nat
  | [] => []
  | b :: bs => toHexDigit (b / 16) :: toHexDigit (b % 16) :: hexEncode bs

/-- The value of one hex digit byte, accepting `0-9`, `a-f` and `A-F` as
Go `encoding/hex` does; any other byte is a decoding error. -/
def fromHexChar (c : Nat) : Option Nat :=
  if 48 ≤ c ∧ c ≤ 57 then some (c - 48)
  else if 97 ≤ c ∧ c ≤ 102 then some (c - 87)
  else if 65 ≤ c ∧ c ≤ 70 then some (c - 55)
  else none

/-- Go `hex.DecodeString`: bytes are decoded two hex digits at a time; an
odd-length input or a non-hex byte yields an error (`none`). -/
def hexDecode : List Nat → Option (List Nat)
  | [] => some []
  | [_] => none
  | c1 :: c2 :: rest =>
    match fromHexChar c1, fromHexChar c2, hexDecode rest with
    | some hi, some lo, some bs => some ((hi * 16 + lo) :: bs)
    | _, _, _ => none

/-- The `Authenticator` of `auth.go`: it carries only the derived key
`k`. -/
structure Authenticator where
  k : List Nat
deriving DecidableEq

/-- `NewAuthenticator` of `auth.go`: the key is the SHA-256 hash of the
secret. -/
def NewAuthenticator (secret : List Nat) : Authenticator :=
  ⟨sha256 secret⟩

/-- `GenerateAnswer` of `auth.go`: the answer is the lowercase hex
encoding of HMAC-SHA256 of the 16 challenge bytes under the key. -/
def Authenticator.GenerateAnswer (a : Authenticator) (ch : List Nat) : List Nat :=
  hexEncode (hmacSha256 a.k ch)

/-- `ValidateAnswer` of `auth.go`: decode the answer from hex, failing
closed to `false`, recompute the expected HMAC and compare with
`hmac.Equal`. -/
def Authenticator.ValidateAnswer (a : Authenticator) (ch ans : List Nat) : Bool :=
  match hexDecode ans with
  | none => false
  | some b => hmacEqual (hmacSha256 a.k ch) b

theorem wordBytes_lt (w : Nat) : ∀ b ∈ wordBytes w, b < 256 := by
  simp [wordBytes]
  omega

theorem sha256_length (m : List Nat) : (sha256 m).length = 32 := rfl

theorem sha256_mem_lt (m : List Nat) : ∀ b ∈ sha256 m, b < 256 := by
  intro b hb
  simp only [sha256, digestBytes, List.mem_flatMap, List.mem_cons, List.not_mem_nil,
    or_false] at hb
  obtain ⟨w, hw, hbw⟩ := hb
  exact wordBytes_lt w b hbw

theorem hmacSha256_length (k m : List Nat) : (hmacSha256 k m).length = 32 := by
  simp [hmacSha256, sha256_length]

theorem hmacSha256_mem_lt (k m : List Nat) : ∀ b ∈ hmacSha256 k m, b < 256 := by
  simp only [hmacSha256]
  exact sha256_mem_lt _

theorem fromHexChar_toHexDigit : ∀ x < 16, fromHexChar (toHexDigit x) = some x := by
  decide

theorem hexDecode_hexEncode (bs : List Nat) (h : ∀ b ∈ bs, b < 256) :
    hexDecode (hexEncode bs) = some bs := by
  induction bs with
  | nil => rfl
  | cons b bs ih =>
    have hb : b < 256 := h b (by simp)
    have h1 : fromHexChar (toHexDigit (b / 16)) = some (b / 16) :=
      fromHexChar_toHexDigit (b / 16) (by omega)
    have h2 : fromHexChar (toHexDigit (b % 16)) = some (b % 16) :=
      fromHexChar_toHexDigit (b % 16) (by omega)
    have ih2 : hexDecode (hexEncode bs) = some bs :=
      ih (fun x hx => h x (by simp [hx]))
    simp [hexEncode, hexDecode, h1, h2, ih2]
    omega

/-- The message tag constants of `misc.go`. -/
def MtChallenge : String := "Challenge"

/-- The heartbeat tag constant of `misc.go`. -/
def MtHeartbeat : String := "Heartbeat"

/-- The connection tag constant of `misc.go`. -/
def MtConnection : String := "Connection"

/-- The authenticate tag constant of `misc.go`. -/
def MtAuthenticate : String := "Authenticate"

/-- The free-port tag constant of `misc.go`. -/
def MtFreePort : String := "FreePort"

/-- The hello tag constant of `misc.go`. -/
def MtHello : String := "Hello"

/-- The error tag constant of `misc.go`. -/
def MtError : String := "Error"

/-- The `ClientMessage` envelope of `misc.go`.  The Go field `Type` is
named `typ` here (`Type` is reserved in Lean); unset fields default to
their Go zero values. -/
structure ClientMessage where
  typ : String := ""
  Authenticate : List Nat := []
  Port : Nat := 0
  Accept : List Nat := []
  ClientId : String := ""
deriving DecidableEq

/-- The `ServerMessage` envelope of `misc.go`.  The Go field `Type` is
named `typ` here; `Challenge` and `Connection` are the 16 UUID bytes. -/
structure ServerMessage where
  typ : String := ""
  Challenge : List Nat := []
  Port : Nat := 0
  Heartbeat : Bool := false
  Connection : List Nat := []
  Error : String := ""
deriving DecidableEq

/-- Modelled from the spec: the wire `Codec` (the "channel") is not among
the given sources, so a channel is modelled as the script of results its
`Recv` calls will produce — `none` is a failed receive (deadline elapsed,
transport failure or decode error) and an exhausted script is a receive
on which no message ever arrives (deadline elapsed).  `Send` succeeds,
recording the message, exactly when `sendOk` is set; a cleared `sendOk`
models a transport error on send. -/
structure ChannelScript where
  incoming : List (Option ServerMessage)
  sendOk : Bool := true
deriving DecidableEq

/-- An error returned by `PerformClientHandshake`: a propagated receive
failure, a propagated send failure, or one of its own `fmt.Errorf`
messages. -/
inductive HsError where
  | recvErr : HsError
  | sendErr : HsError
  | errMsg : String → HsError
deriving DecidableEq

/-- The outcome of `PerformClientHandshake` over a scripted channel: the
returned `(uint16, error)` pair, the messages sent on the channel, and
the unconsumed remainder of the receive script. -/
structure HsResult where
  result : Except HsError Nat
  sent : List ClientMessage
  rest : List (Option ServerMessage)

/-- `PerformClientHandshake` of `auth.go` over a scripted channel:
receive a message (failing on its error), fail with
"no secret provided / invalid secret key" unless it is a Challenge,
send an Authenticate message carrying the generated answer and the
client id, receive again, fail with "rejection response from server"
unless the reply is a FreePort grant, and return the granted port. -/
def Authenticator.PerformClientHandshake (a : Authenticator) (clientId : String)
    (ch : ChannelScript) : HsResult :=
  match ch.incoming with
  | [] => ⟨.error .recvErr, [], []⟩
  | none :: rest => ⟨.error .recvErr, [], rest⟩
  | some msg :: rest =>
    if msg.typ ≠ MtChallenge then
      ⟨.error (.errMsg "no secret provided / invalid secret key"), [], rest⟩
    else
      let answer := a.GenerateAnswer msg.Challenge
      if !ch.sendOk then ⟨.error .sendErr, [], rest⟩
      else
        let sent : List ClientMessage :=
          [{ typ := MtAuthenticate, Authenticate := answer, ClientId := clientId }]
        match rest with
        | [] => ⟨.error .recvErr, sent, []⟩
        | none :: rest2 => ⟨.error .recvErr, sent, rest2⟩
        | some msg2 :: rest2 =>
          if msg2.typ ≠ MtFreePort then
            ⟨.error (.errMsg "rejection response from server"), sent, rest2⟩
          else ⟨.ok msg2.Port, sent, rest2⟩

/-- `processInitialServerMessage` of `misc.go`: a Hello yields its port;
an Error, a Challenge, or any other tag yields the corresponding error
string. -/
def processInitialServerMessage (msg : ServerMessage) : Except String Nat :=
  if msg.typ = MtHello then .ok msg.Port
  else if msg.typ = MtError then .error ("server error: " ++ msg.Error)
  else if msg.typ = MtChallenge then
    .error "server requires authentication, but no client secret was provided"
  else .error ("unexpected initial non-hello message of type: " ++ msg.typ)

/-- The `Client` struct of `misc.go`, without the runtime control
connection `cc` (the channel lives outside the embedded state). -/
structure Client where
  sp : Nat
  da : String
  lh : String
  lp : Nat
  rp : Nat
  auth : Authenticator
  cid : String
deriving DecidableEq

/-- `RemotePort` of `misc.go`. -/
def Client.RemotePort (c : Client) : Nat :=
  c.rp

/-- An error returned by `NewClient`: the failure of each construction
step, wrapping the underlying error where the Go code wraps it with
`%w`; `initialMsg` carries the error string produced by
`processInitialServerMessage`. -/
inductive ClientError where
  | connectFailed : ClientError
  | handshakeFailed : HsError → ClientError
  | sendHelloFailed : ClientError
  | recvFailed : ClientError
  | initialMsg : String → ClientError
deriving DecidableEq

/-- `NewClient` of `misc.go` over a scripted control channel: dial the
server (`dialOk` scripts the dial outcome), derive the authenticator
from the secret, run `PerformClientHandshake`, send a Hello carrying the
granted port, receive one more message and interpret it with
`processInitialServerMessage`; on success the client records the public
remote port.  The returned pair is the construction result and the
messages sent on the control channel. -/
def NewClient (sp : Nat) (lh : String) (lp : Nat) (da cid : String) (s : List Nat)
    (dialOk : Bool) (ch : ChannelScript) :
    Except ClientError Client × List ClientMessage :=
  if !dialOk then (.error .connectFailed, [])
  else
    let auth := NewAuthenticator s
    let hs := auth.PerformClientHandshake cid ch
    match hs.result with
    | .error e => (.error (.handshakeFailed e), hs.sent)
    | .ok destPort =>
      if !ch.sendOk then (.error .sendHelloFailed, hs.sent)
      else
        let sent := hs.sent ++ [{ typ := MtHello, Port := destPort : ClientMessage }]
        match hs.rest with
        | [] => (.error .recvFailed, sent)
        | none :: _ => (.error .recvFailed, sent)
        | some msg :: _ =>
          match processInitialServerMessage msg with
          | .error e => (.error (.initialMsg e), sent)
          | .ok rp => (.ok ⟨sp, da, lh, lp, rp, auth, cid⟩, sent)

/-- An error that terminates the `Listen` control loop: the wrapped
receive failure, the `fmt.Errorf "server error: %s"` value carrying the
server's error text, or the `fmt.Errorf "received unexpected message
type: %s"` value carrying the offending tag. -/
inductive LoopError where
  | recvFailed : LoopError
  | serverError : String → LoopError
  | unexpectedType : String → LoopError
deriving DecidableEq

/-- `processServerMessage` of `misc.go`.  The first argument `hr` is the
result the detached `establishConnectionRoutine` goroutine would
eventually produce for a Connection message (`none` for a graceful
close); the goroutine's deferred logging is collapsed into the returned
log list.  The function returns the Go `error` result (`none` is `nil`)
together with the log lines emitted. -/
def processServerMessage (hr : Option String) (msg : ServerMessage) :
    Option LoopError × List String :=
  if msg.typ = MtHello then (none, ["Received an unexpected hello message"])
  else if msg.typ = MtChallenge then (none, ["Received an unexpected challenge message"])
  else if msg.typ = MtHeartbeat then (none, [])
  else if msg.typ = MtConnection then
    (none, [match hr with
            | some e => "Connection exited with error: " ++ e
            | none => "Connection closed gracefully"])
  else if msg.typ = MtError then (some (.serverError msg.Error), [])
  else (some (.unexpectedType msg.typ), [])

/-- The observable fate of the `Listen` loop on a finite receive script:
either the script is exhausted with the loop still running, or the loop
has returned the given Go `error` value (`none` would be a `nil`
return). -/
inductive ListenOutcome where
  | running : ListenOutcome
  | returned : Option LoopError → ListenOutcome
deriving DecidableEq

/-- `Listen` of `misc.go` over a finite receive script.  Each script
entry is a receive result; `none` is a failed receive, which `Listen`
returns wrapped ("failed to receive server message"), and a received
message is paired with the eventual result of the tunnel handler it
would spawn were it a Connection message.  A non-`nil` result of
`processServerMessage` is returned; otherwise the loop continues,
accumulating log output. -/
def ListenRun : List (Option (ServerMessage × Option String)) → ListenOutcome × List String
  | [] => (.running, [])
  | none :: _ => (.returned (some .recvFailed), [])
  | some (msg, hr) :: rest =>
    let r := processServerMessage hr msg
    match r.1 with
    | some e => (.returned (some e), r.2)
    | none => ((ListenRun rest).1, r.2 ++ (ListenRun rest).2)

/-- An error returned by `establishConnectionRoutine`, wrapping the
failing step as the Go code does with `%w`. -/
inductive TunnelError where
  | connectFailed : TunnelError
  | handshakeFailed : HsError → TunnelError
  | acceptSendFailed : TunnelError
  | localConnectFailed : TunnelError
  | dataTransfer : String → TunnelError
deriving DecidableEq

/-- The scripted environment of one `establishConnectionRoutine` run:
the dial outcome for the server-facing socket, the channel script for
the fresh handshake, the outcome of the later Accept send, the dial
outcome for the local service, and the results of the two `io.Copy`
directions (`none` is a clean end-of-stream). -/
structure TunnelScript where
  dialOk : Bool
  chan : ChannelScript
  acceptSendOk : Bool
  localDialOk : Bool
  copyServerToLocal : Option String
  copyLocalToServer : Option String

/-- The socket bookkeeping of one `establishConnectionRoutine` run:
which of the two sockets were opened and which were closed by the time
the handler returned. -/
structure Ledger where
  serverOpened : Bool
  serverClosed : Bool
  localOpened : Bool
  localClosed : Bool
deriving DecidableEq

/-- The deferred `conn.Close()` of `misc.go`, applied to the ledger on
every exit path of the region it guards. -/
def closeServer (L : Ledger) : Ledger :=
  { L with serverClosed := true }

/-- The deferred `lconn.Close()` of `misc.go`, applied to the ledger on
every exit path of the region it guards. -/
def closeLocal (L : Ledger) : Ledger :=
  { L with localClosed := true }

/-- The body of `establishConnectionRoutine` that runs once the
server-facing socket is open (its deferred close is applied by the
caller): optional fresh handshake, the Accept send, the local dial, and
the two copy directions joined by `errgroup.Wait`, whose first error —
modelled with the server-to-local direction inspected first — becomes
the "data transfer failed" result. -/
def tunnelBody (authPresent : Bool) (a : Authenticator) (cid : String)
    (sc : TunnelScript) : Option TunnelError × Ledger :=
  let L0 : Ledger := ⟨true, false, false, false⟩
  let hsFail : Option HsError :=
    if authPresent then
      match (a.PerformClientHandshake cid sc.chan).result with
      | .error e => some e
      | .ok _ => none
    else none
  match hsFail with
  | some e => (some (.handshakeFailed e), L0)
  | none =>
    if !sc.acceptSendOk then (some .acceptSendFailed, L0)
    else if !sc.localDialOk then (some .localConnectFailed, L0)
    else
      let L1 : Ledger := ⟨true, false, true, false⟩
      let inner : Option TunnelError × Ledger :=
        match sc.copyServerToLocal with
        | some e => (some (.dataTransfer e), L1)
        | none =>
          match sc.copyLocalToServer with
          | some e => (some (.dataTransfer e), L1)
          | none => (none, L1)
      (inner.1, closeLocal inner.2)

/-- `establishConnectionRoutine` of `misc.go` over a scripted
environment: dial the server, register the deferred close of that
socket, and run the rest of the handler; the returned ledger records
which sockets were opened and closed.  The connection id only flows into
the Accept message, which the ledger does not track, so it is not a
parameter here. -/
def establishConnectionRoutine (authPresent : Bool) (a : Authenticator) (cid : String)
    (sc : TunnelScript) : Option TunnelError × Ledger :=
  if !sc.dialOk then (some .connectFailed, ⟨false, false, false, false⟩)
  else
    let r := tunnelBody authPresent a cid sc
    (r.1, closeServer r.2)

/-- C1: for every secret's derived session key — indeed for every key an
`Authenticator` can carry — and every challenge, an answer freshly
generated by `GenerateAnswer` validates under `ValidateAnswer` with the
same key. -/
theorem generate_validate_roundtrip (a : Authenticator) (ch : List Nat) :
    a.ValidateAnswer ch (a.GenerateAnswer ch) = true := by
  have hd := hexDecode_hexEncode (hmacSha256 a.k ch) (hmacSha256_mem_lt a.k ch)
  simp [Authenticator.ValidateAnswer, Authenticator.GenerateAnswer, hd, hmacEqual]

/-- C7: `ValidateAnswer` fails closed — it returns `false` (it is a total
function, so it never throws) on any answer that does not decode as hex,
on the empty string, and on valid hex whose decoded byte length differs
from the 32-byte HMAC-SHA256 digest length. -/
theorem validate_answer_fails_closed :
    (∀ (a : Authenticator) (ch ans : List Nat), hexDecode ans = none →
      a.ValidateAnswer ch ans = false)
    ∧ (∀ (a : Authenticator) (ch : List Nat), a.ValidateAnswer ch [] = false)
    ∧ (∀ (a : Authenticator) (ch ans bs : List Nat), hexDecode ans = some bs →
      bs.length ≠ 32 → a.ValidateAnswer ch ans = false) := by
  refine ⟨?_, ?_, ?_⟩
  · intro a ch ans h
    simp [Authenticator.ValidateAnswer, h]
  · intro a ch
    have h32 := hmacSha256_length a.k ch
    have hne : hmacSha256 a.k ch ≠ [] := by
      intro hh
      rw [hh] at h32
      simp at h32
    simp [Authenticator.ValidateAnswer, hexDecode, hmacEqual, hne]
  · intro a ch ans bs h hl
    have h32 := hmacSha256_length a.k ch
    have hne : hmacSha256 a.k ch ≠ bs := by
      intro hh
      rw [hh] at h32
      exact hl h32
    simp [Authenticator.ValidateAnswer, h, hmacEqual, hne]

/-- Witness for C7: a non-hex answer and a well-formed hex answer of the
wrong byte length are both rejected on concrete inputs. -/
theorem validate_answer_fails_closed_witness :
    (NewAuthenticator []).ValidateAnswer [] [103, 103] = false ∧
    (NewAuthenticator []).ValidateAnswer [] [48, 48] = false :=
  ⟨validate_answer_fails_closed.1 (NewAuthenticator []) [] [103, 103] (by decide),
   validate_answer_fails_closed.2.2 (NewAuthenticator []) [] [48, 48] [0]
     (by decide) (by decide)⟩

/-- C5: whenever the first received message is not a Challenge,
`PerformClientHandshake` fails with the "no secret provided / invalid
secret key" error and has sent nothing on the channel. -/
theorem handshake_first_message_guard (a : Authenticator) (cid : String)
    (msg : ServerMessage) (rest : List (Option ServerMessage)) (sendOk : Bool)
    (h : msg.typ ≠ MtChallenge) :
    a.PerformClientHandshake cid ⟨some msg :: rest, sendOk⟩ =
      ⟨.error (.errMsg "no secret provided / invalid secret key"), [], rest⟩ := by
  simp [Authenticator.PerformClientHandshake, h]

/-- Witness for C5: a first message tagged Hello is rejected with the
authentication error and an empty send log. -/
theorem handshake_first_message_guard_witness :
    (NewAuthenticator []).PerformClientHandshake "id"
        ⟨[some { typ := MtHello }], true⟩ =
      ⟨.error (.errMsg "no secret provided / invalid secret key"), [], []⟩ :=
  handshake_first_message_guard (NewAuthenticator []) "id" { typ := MtHello } []
    true (by decide)

/-- C6: after answering the challenge with the Authenticate message, the
handshake inspects the second received message — any tag other than
FreePort yields the rejection error, and a FreePort grant makes the
handshake succeed returning exactly the port that message carries. -/
theorem handshake_second_message_grant (a : Authenticator) (cid : String)
    (m1 m2 : ServerMessage) (rest : List (Option ServerMessage))
    (h1 : m1.typ = MtChallenge) :
    (m2.typ ≠ MtFreePort →
      a.PerformClientHandshake cid ⟨some m1 :: some m2 :: rest, true⟩ =
        ⟨.error (.errMsg "rejection response from server"),
         [{ typ := MtAuthenticate, Authenticate := a.GenerateAnswer m1.Challenge,
            ClientId := cid }], rest⟩)
    ∧ (m2.typ = MtFreePort →
      a.PerformClientHandshake cid ⟨some m1 :: some m2 :: rest, true⟩ =
        ⟨.ok m2.Port,
         [{ typ := MtAuthenticate, Authenticate := a.GenerateAnswer m1.Challenge,
            ClientId := cid }], rest⟩) := by
  constructor
  · intro h2
    simp [Authenticator.PerformClientHandshake, h1, h2]
  · intro h2
    simp [Authenticator.PerformClientHandshake, h1, h2]

/-- Witness for C6: on concrete scripts, a FreePort second message grants
its port 5000 and an Error second message is rejected. -/
theorem handshake_second_message_grant_witness :
    (NewAuthenticator []).PerformClientHandshake "id"
        ⟨[some { typ := MtChallenge }, some { typ := MtFreePort, Port := 5000 }], true⟩ =
      ⟨.ok 5000,
       [{ typ := MtAuthenticate,
          Authenticate := (NewAuthenticator []).GenerateAnswer [],
          ClientId := "id" }], []⟩ ∧
    (NewAuthenticator []).PerformClientHandshake "id"
        ⟨[some { typ := MtChallenge }, some { typ := MtError }], true⟩ =
      ⟨.error (.errMsg "rejection response from server"),
       [{ typ := MtAuthenticate,
          Authenticate := (NewAuthenticator []).GenerateAnswer [],
          ClientId := "id" }], []⟩ :=
  ⟨(handshake_second_message_grant (NewAuthenticator []) "id" { typ := MtChallenge }
      { typ := MtFreePort, Port := 5000 } [] rfl).2 rfl,
   (handshake_second_message_grant (NewAuthenticator []) "id" { typ := MtChallenge }
      { typ := MtError } [] rfl).1 (by decide)⟩

/-- C2: on the scripted exchange Challenge(X), FreePort(5000),
Hello(9090), `NewClient` sends Authenticate carrying the hex HMAC-SHA256
of X under the SHA-256 of the secret together with the client id,
then Hello(5000), and the constructed client's `RemotePort` is 9090;
whereas if the reply after the client's Hello is a Challenge,
construction fails with "server requires authentication, but no client
secret was provided". -/
theorem control_session_scripted_exchange (sp : Nat) (lh : String) (lp : Nat)
    (da cid : String) (secret X Y : List Nat) :
    NewClient sp lh lp da cid secret true
        ⟨[some { typ := MtChallenge, Challenge := X },
          some { typ := MtFreePort, Port := 5000 },
          some { typ := MtHello, Port := 9090 }], true⟩ =
      (.ok ⟨sp, da, lh, lp, 9090, NewAuthenticator secret, cid⟩,
       [{ typ := MtAuthenticate,
          Authenticate := hexEncode (hmacSha256 (sha256 secret) X),
          ClientId := cid },
        { typ := MtHello, Port := 5000 }])
    ∧ Client.RemotePort ⟨sp, da, lh, lp, 9090, NewAuthenticator secret, cid⟩ = 9090
    ∧ NewClient sp lh lp da cid secret true
        ⟨[some { typ := MtChallenge, Challenge := X },
          some { typ := MtFreePort, Port := 5000 },
          some { typ := MtChallenge, Challenge := Y }], true⟩ =
      (.error (.initialMsg
          "server requires authentication, but no client secret was provided"),
       [{ typ := MtAuthenticate,
          Authenticate := hexEncode (hmacSha256 (sha256 secret) X),
          ClientId := cid },
        { typ := MtHello, Port := 5000 }]) := by
  refine ⟨rfl, rfl, rfl⟩

/-- C3: in the established control loop, Hello and Challenge messages are
only logged and the loop continues, a Heartbeat is a no-op, an Error
message terminates the loop propagating the server-error failure that
carries the server's text, and any unknown tag terminates the loop with
the protocol-violation failure naming that tag. -/
theorem listen_dispatch_by_tag (hr : Option String) (c : List Nat) (p : Nat)
    (hb : Bool) (cn : List Nat) (er : String)
    (rest : List (Option (ServerMessage × Option String))) :
    (ListenRun (some (⟨MtHello, c, p, hb, cn, er⟩, hr) :: rest) =
      ((ListenRun rest).1,
       "Received an unexpected hello message" :: (ListenRun rest).2))
    ∧ (ListenRun (some (⟨MtChallenge, c, p, hb, cn, er⟩, hr) :: rest) =
      ((ListenRun rest).1,
       "Received an unexpected challenge message" :: (ListenRun rest).2))
    ∧ (ListenRun (some (⟨MtHeartbeat, c, p, hb, cn, er⟩, hr) :: rest) = ListenRun rest)
    ∧ (ListenRun (some (⟨MtError, c, p, hb, cn, er⟩, hr) :: rest) =
      (.returned (some (.serverError er)), []))
    ∧ (∀ t : String, t ≠ MtHello → t ≠ MtChallenge → t ≠ MtHeartbeat →
        t ≠ MtConnection → t ≠ MtError →
        ListenRun (some (⟨t, c, p, hb, cn, er⟩, hr) :: rest) =
          (.returned (some (.unexpectedType t)), [])) := by
  refine ⟨?_, ?_, ?_, ?_, ?_⟩
  · simp [ListenRun, processServerMessage, MtHello, MtChallenge, MtHeartbeat,
      MtConnection, MtError]
  · simp [ListenRun, processServerMessage, MtHello, MtChallenge, MtHeartbeat,
      MtConnection, MtError]
  · simp [ListenRun, processServerMessage, MtHello, MtChallenge, MtHeartbeat,
      MtConnection, MtError]
  · simp [ListenRun, processServerMessage, MtHello, MtChallenge, MtHeartbeat,
      MtConnection, MtError]
  · intro t h1 h2 h3 h4 h5
    simp [ListenRun, processServerMessage, h1, h2, h3, h4, h5]

/-- Witness for C3: a message with the unknown tag "Bogus" terminates the
loop with the protocol-violation failure. -/
theorem listen_dispatch_by_tag_witness :
    ListenRun [some (⟨"Bogus", [], 0, false, [], ""⟩, none)] =
      (.returned (some (.unexpectedType "Bogus")), []) :=
  (listen_dispatch_by_tag none [] 0 false [] "" []).2.2.2.2 "Bogus"
    (by decide) (by decide) (by decide) (by decide) (by decide)

/-- C4: a Connection message is processed successfully (the Go `error`
result is `nil`) no matter what the spawned tunnel handler later
returns; a handler error is only logged, and the control loop's outcome
after a Connection message is exactly its outcome on the remaining
script. -/
theorem connection_handler_isolated (c : List Nat) (p : Nat) (hb : Bool)
    (cn : List Nat) (er e : String)
    (rest : List (Option (ServerMessage × Option String))) :
    (processServerMessage (some e) ⟨MtConnection, c, p, hb, cn, er⟩ =
      (none, ["Connection exited with error: " ++ e]))
    ∧ (processServerMessage none ⟨MtConnection, c, p, hb, cn, er⟩ =
      (none, ["Connection closed gracefully"]))
    ∧ (∀ hr : Option String,
        (ListenRun (some (⟨MtConnection, c, p, hb, cn, er⟩, hr) :: rest)).1 =
          (ListenRun rest).1) := by
  refine ⟨?_, ?_, ?_⟩
  · simp [processServerMessage, MtHello, MtChallenge, MtHeartbeat, MtConnection,
      MtError]
  · simp [processServerMessage, MtHello, MtChallenge, MtHeartbeat, MtConnection,
      MtError]
  · intro hr
    simp [ListenRun, processServerMessage, MtHello, MtChallenge, MtHeartbeat,
      MtConnection, MtError]

/-- C10: the control loop never returns `nil` — on every finite receive
script it is either still running or has returned some non-nil error. -/
theorem listen_never_returns_nil
    (script : List (Option (ServerMessage × Option String))) :
    (ListenRun script).1 = .running ∨
      ∃ e, (ListenRun script).1 = .returned (some e) := by
  induction script with
  | nil => exact .inl rfl
  | cons ev rest ih =>
    cases ev with
    | none => exact .inr ⟨.recvFailed, rfl⟩
    | some mh =>
      obtain ⟨msg, hr⟩ := mh
      rcases he : (processServerMessage hr msg).1 with _ | e
      · have hstep : (ListenRun (some (msg, hr) :: rest)).1 = (ListenRun rest).1 := by
          simp [ListenRun, he]
        rw [hstep]
        exact ih
      · exact .inr ⟨e, by simp [ListenRun, he]⟩

theorem tunnelBody_ledger (authPresent : Bool) (a : Authenticator) (cid : String)
    (sc : TunnelScript) :
    (tunnelBody authPresent a cid sc).2.serverOpened = true
    ∧ (tunnelBody authPresent a cid sc).2.serverClosed = false
    ∧ (tunnelBody authPresent a cid sc).2.localClosed =
        (tunnelBody authPresent a cid sc).2.localOpened := by
  obtain ⟨dok, chn, aok, lok, c1, c2⟩ := sc
  rcases hres : (a.PerformClientHandshake cid chn).result with e | prt <;>
    cases authPresent <;> cases aok <;> cases lok <;>
    rcases c1 with _ | e1 <;> rcases c2 with _ | e2 <;>
    simp [tunnelBody, closeLocal, hres]

/-- C8: on every exit path of the tunnel connection handler — dial
failure, handshake failure, Accept-send failure, local connect failure,
a failure in either copy direction, or success — each socket the handler
opened has been closed by the time it returns: in the final ledger the
closed flags coincide with the opened flags for both the server-facing
and the local-service socket. -/
theorem tunnel_sockets_closed_on_exit (authPresent : Bool) (a : Authenticator)
    (cid : String) (sc : TunnelScript) :
    ((establishConnectionRoutine authPresent a cid sc).2.serverClosed =
      (establishConnectionRoutine authPresent a cid sc).2.serverOpened)
    ∧ ((establishConnectionRoutine authPresent a cid sc).2.localClosed =
      (establishConnectionRoutine authPresent a cid sc).2.localOpened) := by
  have h := tunnelBody_ledger authPresent a cid sc
  by_cases hd : sc.dialOk
  · simp [establishConnectionRoutine, hd, closeServer, h.1, h.2.2]
  · simp [establishConnectionRoutine, hd]
